import Mathlib

/-
Verification of the line-existence query service (python-socket-daemon).

The development shallowly embeds the two source modules the claims are about:

* `src/benchmark.py` — the five matcher strategies (`linear_search`,
  `binary_search`, `hash_table_search`, `boyer_moore_search`, `kmp_search`)
  and the dataset flow of `benchmark_algorithms`;
* `src/server.py` — `Server.__init__`, `Server.process_query` and
  `Server.handle_client`.

Python strings are modelled as lists of characters (`PyStr`); Python string
comparison is code-point lexicographic, matching the lexicographic order on
`List Char`.  Python list indexing `s[i]` is modelled by `List.get?` (with
Python's negative-index wraparound where the source can reach it, see
`pyIndex`); an out-of-range access, which raises `IndexError` in Python, is
modelled by `none` / `PyOutcome.indexError`.  The two search loops whose
termination is not structural carry an explicit fuel argument: `none` means
the loop has not returned within `fuel` iterations.
-/

/-- Python strings, modelled as lists of characters (code points). -/
abbrev PyStr := List Char

/-- Outcome of a Python call: a returned value, or an uncaught `IndexError`. -/
inductive PyOutcome (α : Type) where
  | ok : α → PyOutcome α
  | indexError : PyOutcome α
deriving DecidableEq, Repr

/- ### src/benchmark.py -/

/-- `linear_search` (src/benchmark.py lines 5-19): `return query in file_contents`. -/
def linear_search (file_contents : List PyStr) (query : PyStr) : Bool :=
  file_contents.contains query

/-- `hash_table_search` (src/benchmark.py lines 49-65): `file_set = set(file_contents)`
followed by `query in file_set`.  The hash set is modelled by `List.dedup`, which has
exactly the membership of the built set. -/
def hash_table_search (file_contents : List PyStr) (query : PyStr) : Bool :=
  file_contents.dedup.contains query

/-- `file_contents.sort()` (src/benchmark.py line 36).  Python's in-place `sort` is
ascending; on a linear order the sorted permutation is unique, so any sorting
algorithm models it; we use insertion sort. -/
def pySortLines (l : List PyStr) : List PyStr :=
  List.insertionSort (· ≤ ·) l

/-- The `while low <= high` bisection loop of `binary_search`
(src/benchmark.py lines 37-46), after the in-place sort.  `low`/`high` are
Python ints; `mid = (low + high) // 2`; list indexing is in bounds on every
reachable state, so `getD` with a junk default is faithful there. -/
def binary_search_loop (l : List PyStr) (query : PyStr) (low high : Int) : Bool :=
  if h : low ≤ high then
    if l.getD ((low + high) / 2).toNat [] = query then true
    else if l.getD ((low + high) / 2).toNat [] < query then
      binary_search_loop l query ((low + high) / 2 + 1) high
    else binary_search_loop l query low ((low + high) / 2 - 1)
  else false
termination_by (high + 1 - low).toNat
decreasing_by
  all_goals omega

/-- `binary_search` (src/benchmark.py lines 22-46) as a call on a Python list
argument: the returned boolean together with the state of the caller's list
after the call (the call sorts the list in place before bisecting). -/
def binary_search_call (file_contents : List PyStr) (query : PyStr) : Bool × List PyStr :=
  let s := pySortLines file_contents
  (binary_search_loop s query 0 ((s.length : Int) - 1), s)

/-- The boolean returned by `binary_search` (src/benchmark.py lines 22-46). -/
def binary_search (file_contents : List PyStr) (query : PyStr) : Bool :=
  (binary_search_call file_contents query).1

/-- Python list/string indexing `t[i]`: non-negative indices are direct,
negative indices wrap from the end (`t[-1]` is the last element), anything
else raises `IndexError` (modelled as `none`). -/
def pyIndex (t : PyStr) (i : Int) : Option Char :=
  if 0 ≤ i then t.get? i.toNat
  else if 0 ≤ (t.length : Int) + i then t.get? ((t.length : Int) + i).toNat
  else none

/-- The `preprocess` bad-character table of `boyer_moore_search`
(src/benchmark.py lines 83-87): `skip[pattern[i]] = max(1, len(pattern)-i-1)`
for `i` in `range(len(pattern))`, later indices overwriting earlier ones.
The dict is modelled as a partial function; `skip.get(c, m)` is
`(bm_skip pattern c).getD m`. -/
def bm_skip (pattern : PyStr) : Char → Option Nat :=
  (List.range pattern.length).foldl
    (fun f i c =>
      if c == pattern.getD i 'A' then some (max 1 (pattern.length - i - 1)) else f c)
    (fun _ => none)

/-- The inner `while j >= 0 and text[i] == pattern[j]` loop of
`boyer_moore_search` (src/benchmark.py lines 97-100).  The loop variable `j`
is re-encoded as the natural number `k = j + 1` so the recursion is
structural (`k = 0` is Python's `j = -1`); the returned pair is the final
`(i, j)`.  `text[i]` can be evaluated at a negative `i`, which Python wraps
(`pyIndex`); an index out of range even after wrapping raises, giving `none`. -/
def bmInnerK (pattern text : PyStr) : Int → Nat → Option (Int × Int)
  | i, 0 => some (i, -1)
  | i, k + 1 =>
    match pyIndex text i with
    | none => none
    | some c =>
      match pattern.get? k with
      | none => none
      | some d =>
        if c == d then bmInnerK pattern text (i - 1) k else some (i, (k : Int))

/-- The outer `while i < n` loop of `boyer_moore_search`
(src/benchmark.py lines 96-103) on one text line, with fuel: `none` means the
loop has not returned within `fuel` iterations (the source loop can in fact
run forever, see the claims below). -/
def bmLineLoop (pattern text : PyStr) (skip : Char → Option Nat) :
    Nat → Int → Option (PyOutcome Bool)
  | 0, _ => none
  | fuel + 1, i =>
    if i < (text.length : Int) then
      match bmInnerK pattern text i pattern.length with
      | none => some .indexError
      | some (i2, j2) =>
        if j2 < 0 then some (.ok true)
        else
          match pyIndex text i2 with
          | none => some .indexError
          | some c =>
            -- `i += skip.get(text[i], m)`
            bmLineLoop pattern text skip fuel (i2 + (((skip c).getD pattern.length : Nat) : Int))
    else some (.ok false)

/-- `boyer_moore_search` (src/benchmark.py lines 68-104): build the skip
table from the pattern, then scan each line with the Boyer-Moore loop;
`False` after the last line.  The same `fuel` bounds the loop on every line. -/
def boyer_moore_search : Nat → List PyStr → PyStr → Option (PyOutcome Bool)
  | _, [], _ => some (.ok false)
  | fuel, text :: rest, query =>
    match bmLineLoop query text (bm_skip query) fuel ((query.length : Int) - 1) with
    | none => none
    | some .indexError => some .indexError
    | some (.ok true) => some (.ok true)
    | some (.ok false) => boyer_moore_search fuel rest query

/-- The `kmp_table` closure of `kmp_search` (src/benchmark.py lines 122-135),
translated statement by statement.  Note the source's `i -= 1` inside the
`for i in range(1, len(pattern))` loop has no effect in Python (the loop
variable is reassigned by the iterator), so it is absent here. -/
def kmp_table (pattern : PyStr) : List Nat :=
  let m := pattern.length
  ((List.range' 1 (m - 1)).foldl
    (fun st i =>
      if pattern.getD i 'A' == pattern.getD st.2 'A' then
        (st.1.set i (st.2 + 1), st.2 + 1)
      else if st.2 ≠ 0 then (st.1, st.1.getD (st.2 - 1) 0)
      else (st.1.set i 0, st.2))
    (List.replicate m 0, 0)).1

/-- The `while i < n` loop of `kmp_search` (src/benchmark.py lines 142-153)
on one text line, with fuel.  `pattern[j]` is evaluated first each iteration,
so an empty pattern with a non-empty line raises `IndexError`, as in the
source; the `elif` re-reads `pattern[j]` and `text[i]` after the optional
advance, guarded by `i < n`. -/
def kmpLoop (pattern text : PyStr) (table : List Nat) :
    Nat → Nat → Nat → Option (PyOutcome Bool)
  | 0, _, _ => none
  | fuel + 1, i, j =>
    if i < text.length then
      match pattern.get? j, text.get? i with
      | none, _ => some .indexError
      | some _, none => some .indexError
      | some pj, some ti =>
        let i2 := if pj == ti then i + 1 else i
        let j2 := if pj == ti then j + 1 else j
        if j2 = pattern.length then some (.ok true)
        else if i2 < text.length then
          match pattern.get? j2, text.get? i2 with
          | none, _ => some .indexError
          | some _, none => some .indexError
          | some pj2, some ti2 =>
            if pj2 != ti2 then
              if j2 ≠ 0 then kmpLoop pattern text table fuel i2 (table.getD (j2 - 1) 0)
              else kmpLoop pattern text table fuel (i2 + 1) j2
            else kmpLoop pattern text table fuel i2 j2
        else kmpLoop pattern text table fuel i2 j2
    else some (.ok false)

/-- `kmp_search` (src/benchmark.py lines 107-154): for each line, build the
failure table from the pattern and run the KMP loop; `False` after the last
line. -/
def kmp_search : Nat → List PyStr → PyStr → Option (PyOutcome Bool)
  | _, [], _ => some (.ok false)
  | fuel, text :: rest, query =>
    match kmpLoop query text (kmp_table query) fuel 0 0 with
    | none => none
    | some .indexError => some .indexError
    | some (.ok true) => some (.ok true)
    | some (.ok false) => kmp_search fuel rest query

/-- The specification's notion of substring containment used by the claims
about the two substring strategies: `pattern` occurs contiguously inside
`text`. -/
def substringOccursSpec (pattern text : PyStr) : Bool :=
  (List.range (text.length + 1)).any fun k => (text.drop k).take pattern.length == pattern

/- ### Dataset state threaded through benchmark_algorithms -/

/-- A call to `linear_search` returns its boolean and leaves the caller's
list unmodified (the source never assigns into `file_contents`). -/
def linear_search_call (l : List PyStr) (q : PyStr) : Bool × List PyStr :=
  (linear_search l q, l)

/-- A call to `hash_table_search` leaves the caller's list unmodified. -/
def hash_table_search_call (l : List PyStr) (q : PyStr) : Bool × List PyStr :=
  (hash_table_search l q, l)

/-- A call to `kmp_search` leaves the caller's list unmodified. -/
def kmp_search_call (fuel : Nat) (l : List PyStr) (q : PyStr) :
    Option (PyOutcome Bool) × List PyStr :=
  (kmp_search fuel l q, l)

/-- A call to `boyer_moore_search` leaves the caller's list unmodified. -/
def boyer_moore_search_call (fuel : Nat) (l : List PyStr) (q : PyStr) :
    Option (PyOutcome Bool) × List PyStr :=
  (boyer_moore_search fuel l q, l)

/-- The dataset list as `benchmark_algorithms` (src/benchmark.py lines
176-198) passes it to `kmp_search`: the strategies actually run are, in
order, `linear_search`, `binary_search`, `kmp_search` (the other two are
commented out in the source), each receiving the list state left by the
previous call. -/
def benchmark_kmp_input (l : List PyStr) (q : PyStr) : List PyStr :=
  let l1 := (linear_search_call l q).2
  let l2 := (binary_search_call l1 q).2
  l2

/- ### src/server.py -/

namespace Server

/-- The server state established by `Server.__init__` (src/server.py lines
13-36): the `REREAD_ON_QUERY` flag and `self.file_contents`, which is `None`
unless the flag is off, in which case it is the startup read of the dataset
file. -/
structure State where
  reread_on_query : Bool
  file_contents : Option (List PyStr)
deriving DecidableEq

/-- `Server.__init__` (src/server.py lines 27-32) after a successful startup:
`file_contents = None`, then `if not reread_on_query: file_contents =
read_file(path)`.  `startup_file` is the list of lines `read_file` returns at
startup. -/
def init (reread_on_query : Bool) (startup_file : List PyStr) : State :=
  ⟨reread_on_query, if reread_on_query then none else some startup_file⟩

/-- The dataset view `process_query` consults (src/server.py lines 134-137):
the fresh `read_file` result when rereading (`disk`, `none` when the file is
missing or unreadable, in which case `read_file` raises), else the cached
`self.file_contents`. -/
def consulted (st : State) (disk : Option (List PyStr)) : Option (List PyStr) :=
  if st.reread_on_query then disk else st.file_contents

/-- `Server.process_query` (src/server.py lines 119-142): consult the dataset
per the reread flag, then return the verdict string; `none` models the
`FileNotFoundError` a failed reload raises out of `process_query`. -/
def process_query (st : State) (disk : Option (List PyStr)) (query : PyStr) : Option PyStr :=
  match consulted st disk with
  | none => none
  | some fc =>
    some (if query ∈ fc then "STRING EXISTS".data else "STRING NOT FOUND".data)

/-- Python `str.isspace` on the ASCII whitespace Python's `strip()` removes. -/
def pyIsSpace (c : Char) : Bool :=
  c == ' ' || c == '\t' || c == '\n' || c == '\r' || c == '\x0b' || c == '\x0c'

/-- Python `str.strip()` with no arguments: remove leading AND trailing
whitespace. -/
def pyStrip (l : PyStr) : PyStr :=
  ((l.dropWhile pyIsSpace).reverse.dropWhile pyIsSpace).reverse

/-- The query `handle_client` passes to `process_query` (src/server.py line
109): `conn.recv(1024).decode().strip()`. -/
def handler_query (raw : PyStr) : PyStr :=
  pyStrip raw

/-- Observable outcome of one `handle_client` call: the lines sent to the
client, whether the socket was closed, and whether an exception escaped the
handler. -/
structure HandlerResult where
  sent : List PyStr
  closed : Bool
  raised : Bool
deriving DecidableEq

/-- `Server.handle_client` (src/server.py lines 80-117).  Inputs model the
connection's behaviour: `recvd` is the decoded received payload (`none` when
`recv`/`decode` raises), `disk` the per-query dataset read (`none` when the
file is unavailable), `sendOk` whether `sendall` succeeds.  The `try` body
sends the response; `except` only logs; `finally` closes the socket. -/
def handle_client (st : State) (recvd : Option PyStr) (disk : Option (List PyStr))
    (sendOk : Bool) : HandlerResult :=
  match recvd with
  | none => ⟨[], true, false⟩
  | some raw =>
    match process_query st disk (handler_query raw) with
    | none => ⟨[], true, false⟩
    | some resp => if sendOk then ⟨[resp ++ ['\n']], true, false⟩ else ⟨[], true, false⟩

end Server

/- ### Correctness of the bisection loop on a sorted list -/

/-- On a sorted list, `getD` is monotone in the index (within bounds). -/
lemma sorted_getD_le (l : List PyStr) (hs : List.Sorted (· ≤ ·) l)
    (i j : Nat) (hij : i ≤ j) (hj : j < l.length) :
    l.getD i [] ≤ l.getD j [] := by
  have hi : i < l.length := lt_of_le_of_lt hij hj
  rw [List.getD_eq_getElem l [] hi, List.getD_eq_getElem l [] hj]
  rcases Nat.lt_or_ge i j with hlt | hge
  · have := hs.rel_get_of_lt (a := ⟨i, hi⟩) (b := ⟨j, hj⟩) hlt
    simpa [List.get_eq_getElem] using this
  · have : i = j := le_antisymm hij hge
    subst this
    exact le_refl _

/-- The bisection loop decides membership on a sorted list, provided every
index outside the `[low, high]` window is already known not to hold the
query. -/
lemma binary_search_loop_iff (l : List PyStr) (q : PyStr)
    (hs : List.Sorted (· ≤ ·) l) :
    ∀ (n : Nat) (low high : Int), (high + 1 - low).toNat = n → 0 ≤ low →
      high < (l.length : Int) →
      (∀ i : Nat, i < l.length → (i : Int) < low → l.getD i [] ≠ q) →
      (∀ i : Nat, i < l.length → high < (i : Int) → l.getD i [] ≠ q) →
      (binary_search_loop l q low high = true ↔ q ∈ l) := by
  intro n
  induction n using Nat.strong_induction_on with
  | _ n ih =>
    intro low high hn hlow hhigh hleft hright
    by_cases hcmp : low ≤ high
    · have hm1 : low ≤ (low + high) / 2 := by omega
      have hm2 : (low + high) / 2 ≤ high := by omega
      have hmidlen : ((low + high) / 2).toNat < l.length := by omega
      by_cases hv : l.getD ((low + high) / 2).toNat [] = q
      · rw [binary_search_loop, dif_pos hcmp, if_pos hv]
        refine iff_of_true rfl ?_
        rw [List.getD_eq_getElem l [] hmidlen] at hv
        exact hv ▸ List.getElem_mem hmidlen
      · by_cases hlt : l.getD ((low + high) / 2).toNat [] < q
        · rw [binary_search_loop, dif_pos hcmp, if_neg hv, if_pos hlt]
          refine ih (high + 1 - ((low + high) / 2 + 1)).toNat (by omega)
            ((low + high) / 2 + 1) high rfl (by omega) hhigh ?_ hright
          intro i hilen hi
          rcases Nat.lt_or_ge i ((low + high) / 2).toNat with hio | hio
          · rcases Int.lt_or_le (i : Int) low with h1 | h1
            · exact hleft i hilen h1
            · intro hiq
              have hle : l.getD i [] ≤ l.getD ((low + high) / 2).toNat [] :=
                sorted_getD_le l hs i ((low + high) / 2).toNat (Nat.le_of_lt hio) hmidlen
              rw [hiq] at hle
              exact absurd (lt_of_le_of_lt hle hlt) (lt_irrefl q)
          · have : i = ((low + high) / 2).toNat := by omega
            subst this
            intro hiq
            rw [hiq] at hlt
            exact lt_irrefl q hlt
        · have hgt : q < l.getD ((low + high) / 2).toNat [] := by
            rcases lt_trichotomy (l.getD ((low + high) / 2).toNat []) q with h | h | h
            · exact absurd h hlt
            · exact absurd h hv
            · exact h
          rw [binary_search_loop, dif_pos hcmp, if_neg hv, if_neg hlt]
          refine ih ((low + high) / 2 - 1 + 1 - low).toNat (by omega)
            low ((low + high) / 2 - 1) rfl hlow (by omega) hleft ?_
          intro i hilen hi
          have hio : ((low + high) / 2).toNat ≤ i := by omega
          intro hiq
          have hle : l.getD ((low + high) / 2).toNat [] ≤ l.getD i [] :=
            sorted_getD_le l hs ((low + high) / 2).toNat i hio hilen
          rw [hiq] at hle
          exact absurd (lt_of_lt_of_le hgt hle) (lt_irrefl q)
    · rw [binary_search_loop, dif_neg hcmp]
      refine iff_of_false (by simp) ?_
      intro hq
      obtain ⟨i, hi, hgi⟩ := List.mem_iff_getElem.mp hq
      have hgd : l.getD i [] = q := by rw [List.getD_eq_getElem l [] hi, hgi]
      rcases Int.lt_or_le (i : Int) low with h1 | h1
      · exact hleft i hi h1 hgd
      · exact hright i hi (by omega) hgd

/-- `binary_search` returns `true` exactly on membership of the query in the
dataset (the sort makes the bisection sound on any input list). -/
theorem binary_search_eq_mem (l : List PyStr) (q : PyStr) :
    binary_search l q = true ↔ q ∈ l := by
  have hs : List.Sorted (· ≤ ·) (pySortLines l) :=
    List.sorted_insertionSort (· ≤ ·) l
  have hperm : (pySortLines l).Perm l := List.perm_insertionSort (· ≤ ·) l
  have h := binary_search_loop_iff (pySortLines l) q hs
    (((pySortLines l).length : Int) - 1 + 1 - 0).toNat 0
    (((pySortLines l).length : Int) - 1) rfl (by omega) (by omega)
    (by intro i hi h1; omega)
    (by intro i hi h1; omega)
  unfold binary_search binary_search_call
  rw [h]
  exact hperm.mem_iff

/- ### The Boyer-Moore loop cycles on text "acc", pattern "abc" -/

/-- From alignment end 2 on text `"acc"` with pattern `"abc"`, one iteration
of the Boyer-Moore outer loop returns to alignment end 2: the inner loop
matches `'c'`, mismatches `'c'` against `'b'` at `i = 1`, and the skip for
the mismatched character `'c'` is 1, so `i` becomes 2 again.  Hence no
amount of fuel makes the loop return. -/
lemma bmLineLoop_acc_abc_stuck (fuel : Nat) :
    bmLineLoop "abc".data "acc".data (bm_skip "abc".data) fuel 2 = none := by
  induction fuel with
  | zero => rfl
  | succ n ih => exact ih

/-- `boyer_moore_search` never returns on dataset `["acc"]`, query `"abc"`. -/
lemma boyer_moore_acc_abc_no_answer (fuel : Nat) :
    boyer_moore_search fuel ["acc".data] "abc".data = none := by
  have h := bmLineLoop_acc_abc_stuck fuel
  unfold boyer_moore_search
  rw [show (("abc".data.length : Int) - 1) = 2 by decide] at *
  rw [h]

/- ### Claims -/

/-- Claim C1: `Server.process_query` returns `"STRING EXISTS"` iff the query
equals some line of the consulted dataset and `"STRING NOT FOUND"` otherwise;
the handler sends exactly that verdict followed by one newline; and on the
dataset `["10;0;1;26;0;9;3;0;", "7;0;21;16;0;22;4;0;"]` with reread disabled,
query `"10;0;1;26;0;9;3;0;"` yields the exists verdict and `"99;0;0;0;"` the
not-found verdict. -/
theorem C1_verdict_and_response (st : Server.State) (disk : Option (List PyStr))
    (fc : List PyStr) (q raw : PyStr) (h : Server.consulted st disk = some fc) :
    (Server.process_query st disk q = some "STRING EXISTS".data ↔ q ∈ fc)
    ∧ (Server.process_query st disk q = some "STRING NOT FOUND".data ↔ q ∉ fc)
    ∧ (Server.handle_client st (some raw) disk true).sent
        = [(if Server.handler_query raw ∈ fc then "STRING EXISTS".data
            else "STRING NOT FOUND".data) ++ ['\n']]
    ∧ Server.process_query
        (Server.init false ["10;0;1;26;0;9;3;0;".data, "7;0;21;16;0;22;4;0;".data]) none
        "10;0;1;26;0;9;3;0;".data = some "STRING EXISTS".data
    ∧ Server.process_query
        (Server.init false ["10;0;1;26;0;9;3;0;".data, "7;0;21;16;0;22;4;0;".data]) none
        "99;0;0;0;".data = some "STRING NOT FOUND".data := by
  have hne : ("STRING EXISTS".data : PyStr) ≠ "STRING NOT FOUND".data := by decide
  refine ⟨?_, ?_, ?_, by decide, by decide⟩
  · rw [Server.process_query, h]
    by_cases hq : q ∈ fc
    · simp [hq]
    · simp [hq, hne]
  · rw [Server.process_query, h]
    by_cases hq : q ∈ fc
    · simp [hq, hne]
    · simp [hq]
  · simp [Server.handle_client, Server.process_query, h]

/-- Witness for C1 at a concrete server: dataset `["a"]`, reread disabled. -/
theorem C1_verdict_and_response_witness :
    Server.consulted (Server.init false ["a".data]) none = some ["a".data]
    ∧ ((Server.process_query (Server.init false ["a".data]) none "a".data
          = some "STRING EXISTS".data ↔ "a".data ∈ [("a".data : PyStr)])
       ∧ (Server.process_query (Server.init false ["a".data]) none "a".data
          = some "STRING NOT FOUND".data ↔ "a".data ∉ [("a".data : PyStr)])
       ∧ (Server.handle_client (Server.init false ["a".data]) (some "a".data) none true).sent
          = [(if Server.handler_query "a".data ∈ [("a".data : PyStr)]
              then "STRING EXISTS".data else "STRING NOT FOUND".data) ++ ['\n']]
       ∧ Server.process_query
          (Server.init false ["10;0;1;26;0;9;3;0;".data, "7;0;21;16;0;22;4;0;".data]) none
          "10;0;1;26;0;9;3;0;".data = some "STRING EXISTS".data
       ∧ Server.process_query
          (Server.init false ["10;0;1;26;0;9;3;0;".data, "7;0;21;16;0;22;4;0;".data]) none
          "99;0;0;0;".data = some "STRING NOT FOUND".data) :=
  ⟨by decide,
   C1_verdict_and_response (Server.init false ["a".data]) none ["a".data]
     "a".data "a".data (by decide)⟩

/-- Claim C2: on every non-empty dataset the three equality-based strategies
agree, and each returns `true` exactly on membership. -/
theorem C2_equality_strategies_agree (D : List PyStr) (q : PyStr) (_hD : D ≠ []) :
    (linear_search D q = hash_table_search D q
      ∧ hash_table_search D q = binary_search D q)
    ∧ (linear_search D q = true ↔ q ∈ D)
    ∧ (hash_table_search D q = true ↔ q ∈ D)
    ∧ (binary_search D q = true ↔ q ∈ D) := by
  have booleq : ∀ a b : Bool, (a = true ↔ b = true) → a = b := by decide
  have hlin : linear_search D q = true ↔ q ∈ D := by
    simp [linear_search]
  have hhash : hash_table_search D q = true ↔ q ∈ D := by
    simp [hash_table_search]
  have hbin : binary_search D q = true ↔ q ∈ D := binary_search_eq_mem D q
  exact ⟨⟨booleq _ _ (hlin.trans hhash.symm), booleq _ _ (hhash.trans hbin.symm)⟩,
    hlin, hhash, hbin⟩

/-- Witness for C2 on the concrete non-empty dataset `["b", "a"]`. -/
theorem C2_equality_strategies_agree_witness :
    (["b".data, "a".data] : List PyStr) ≠ []
    ∧ ((linear_search ["b".data, "a".data] "a".data
          = hash_table_search ["b".data, "a".data] "a".data
        ∧ hash_table_search ["b".data, "a".data] "a".data
          = binary_search ["b".data, "a".data] "a".data)
       ∧ (linear_search ["b".data, "a".data] "a".data = true
          ↔ "a".data ∈ [("b".data : PyStr), "a".data])
       ∧ (hash_table_search ["b".data, "a".data] "a".data = true
          ↔ "a".data ∈ [("b".data : PyStr), "a".data])
       ∧ (binary_search ["b".data, "a".data] "a".data = true
          ↔ "a".data ∈ [("b".data : PyStr), "a".data])) :=
  ⟨by decide, C2_equality_strategies_agree ["b".data, "a".data] "a".data (by decide)⟩

/-- Claim C3 fails on the code: `kmp_search` returns `False` on the dataset
`["aabaaaabaaab"]` for query `"aabaaab"`, although the query occurs as a
contiguous substring of the line (occurrence starting at index 5) — the
no-op `i -= 1` in `kmp_table` leaves wrong failure-table entries, which makes
the search skip the real occurrence.  Moreover `boyer_moore_search` never
returns at all on dataset `["acc"]`, query `"abc"` (a non-substring input on
which the claim requires `False`). -/
theorem C3_substring_search_broken :
    kmp_search 100 ["aabaaaabaaab".data] "aabaaab".data = some (.ok false)
    ∧ substringOccursSpec "aabaaab".data "aabaaaabaaab".data = true
    ∧ (∀ fuel : Nat, boyer_moore_search fuel ["acc".data] "abc".data = none)
    ∧ substringOccursSpec "abc".data "acc".data = false :=
  ⟨by decide, by decide, boyer_moore_acc_abc_no_answer, by decide⟩

/-- Claim C4 fails on the code: on dataset `[""]` (one empty line) with the
empty query, `kmp_search` returns `False` while `boyer_moore_search` returns
`True`, so the two substring strategies do not agree on all inputs. -/
theorem C4_substring_strategies_disagree :
    kmp_search 1 [([] : PyStr)] ([] : PyStr) = some (.ok false)
    ∧ boyer_moore_search 1 [([] : PyStr)] ([] : PyStr) = some (.ok true) :=
  ⟨by decide, by decide⟩

/-- Claim C5: with reread enabled every query consults the dataset read at
query time (the startup snapshot is irrelevant); with it disabled every query
consults the startup snapshot (the current file content is irrelevant). -/
theorem C5_reread_policy (startup modified : List PyStr) (q : PyStr) :
    Server.process_query (Server.init true startup) (some modified) q
      = some (if q ∈ modified then "STRING EXISTS".data else "STRING NOT FOUND".data)
    ∧ Server.process_query (Server.init false startup) (some modified) q
      = some (if q ∈ startup then "STRING EXISTS".data else "STRING NOT FOUND".data)
    ∧ (∀ startup2, Server.process_query (Server.init true startup2) (some modified) q
        = Server.process_query (Server.init true startup) (some modified) q)
    ∧ (∀ modified2, Server.process_query (Server.init false startup) (some modified2) q
        = Server.process_query (Server.init false startup) (some modified) q) :=
  ⟨rfl, rfl, fun _ => rfl, fun _ => rfl⟩

/-- Claim C6 fails on the code: when the dataset reload fails (reread mode,
file unavailable), `handle_client` sends no response line at all — the
`except` branch only logs — rather than the query-level failure response the
claim requires; the socket is still closed. -/
theorem C6_no_failure_response_counterexample :
    (Server.handle_client (Server.init true ["x".data]) (some "q".data) none true).sent = []
    ∧ (Server.handle_client (Server.init true ["x".data]) (some "q".data) none true).closed
        = true :=
  ⟨rfl, rfl⟩

/-- Claim C6 amended: exactly one response line (the verdict plus newline) is
sent when receive, dataset load and send all succeed; on any failure nothing
is sent; the connection is closed on every exit path. -/
theorem C6_amended_handler_contract (st : Server.State) (raw : PyStr)
    (disk : Option (List PyStr)) :
    ((Server.handle_client st (some raw) disk true).sent
      = match Server.process_query st disk (Server.handler_query raw) with
        | some resp => [resp ++ ['\n']]
        | none => [])
    ∧ (∀ recvd sendOk, (Server.handle_client st recvd disk sendOk).closed = true)
    ∧ (∀ recvd sendOk, (Server.handle_client st recvd disk sendOk).sent.length ≤ 1)
    ∧ (Server.handle_client st none disk true).sent = []
    ∧ (Server.handle_client st (some raw) disk false).sent = [] := by
  refine ⟨?_, ?_, ?_, rfl, ?_⟩
  · cases h : Server.process_query st disk (Server.handler_query raw) with
    | none => simp [Server.handle_client, h]
    | some resp => simp [Server.handle_client, h]
  · intro recvd sendOk
    cases recvd with
    | none => rfl
    | some raw2 =>
      rw [Server.handle_client]
      cases Server.process_query st disk (Server.handler_query raw2) with
      | none => rfl
      | some resp => cases sendOk <;> rfl
  · intro recvd sendOk
    cases recvd with
    | none => simp [Server.handle_client]
    | some raw2 =>
      rw [Server.handle_client]
      cases Server.process_query st disk (Server.handler_query raw2) with
      | none => simp
      | some resp => cases sendOk <;> simp
  · cases h : Server.process_query st disk (Server.handler_query raw) with
    | none => simp [Server.handle_client, h]
    | some resp => simp [Server.handle_client, h]

/-- Claim C7 fails on the code: `kmp_search` raises `IndexError` on the
empty query against dataset `["a"]` (it reads `pattern[0]` of an empty
pattern), and `boyer_moore_search` never terminates on dataset `["acc"]`,
query `"abc"`. -/
theorem C7_matchers_not_total :
    kmp_search 5 ["a".data] ([] : PyStr) = some .indexError
    ∧ (∀ fuel : Nat, boyer_moore_search fuel ["acc".data] "abc".data = none) :=
  ⟨by decide, boyer_moore_acc_abc_no_answer⟩

/-- Claim C8 fails on the code: `handle_client` applies Python `strip()`,
which removes leading whitespace as well.  Received text `" abc"` (no
trailing whitespace) is matched as `"abc"`: against the dataset `[" abc"]`
the server answers `"STRING NOT FOUND"`, though the claim's
leading-whitespace-preserving query would be found. -/
theorem C8_leading_whitespace_counterexample :
    Server.handler_query " abc".data = "abc".data
    ∧ " abc".data ≠ "abc".data
    ∧ (Server.handle_client (Server.init false [" abc".data]) (some " abc".data) none
        true).sent = ["STRING NOT FOUND\n".data] :=
  ⟨by decide, by decide, by decide⟩

/-- Claim C8 amended: the query passed to `process_query` is the received
text with BOTH leading and trailing whitespace removed (Python `strip()`);
the interior is preserved: the received text is the removed all-whitespace
head, then the query verbatim, then the removed all-whitespace tail. -/
theorem C8_amended_strip_both_ends (raw : PyStr) :
    Server.handler_query raw = Server.pyStrip raw
    ∧ ∃ pre suf : PyStr,
        raw = pre ++ Server.handler_query raw ++ suf
        ∧ (∀ c ∈ pre, Server.pyIsSpace c = true)
        ∧ (∀ c ∈ suf, Server.pyIsSpace c = true) := by
  refine ⟨rfl, raw.takeWhile Server.pyIsSpace,
    ((raw.dropWhile Server.pyIsSpace).reverse.takeWhile Server.pyIsSpace).reverse,
    ?_, ?_, ?_⟩
  · have h2 : raw.dropWhile Server.pyIsSpace
        = ((raw.dropWhile Server.pyIsSpace).reverse.dropWhile Server.pyIsSpace).reverse
          ++ ((raw.dropWhile Server.pyIsSpace).reverse.takeWhile Server.pyIsSpace).reverse := by
      calc raw.dropWhile Server.pyIsSpace
          = (raw.dropWhile Server.pyIsSpace).reverse.reverse := (List.reverse_reverse _).symm
        _ = ((raw.dropWhile Server.pyIsSpace).reverse.takeWhile Server.pyIsSpace
              ++ (raw.dropWhile Server.pyIsSpace).reverse.dropWhile Server.pyIsSpace).reverse := by
            rw [List.takeWhile_append_dropWhile]
        _ = ((raw.dropWhile Server.pyIsSpace).reverse.dropWhile Server.pyIsSpace).reverse
              ++ ((raw.dropWhile Server.pyIsSpace).reverse.takeWhile Server.pyIsSpace).reverse := by
            rw [List.reverse_append]
    calc raw = raw.takeWhile Server.pyIsSpace ++ raw.dropWhile Server.pyIsSpace :=
          (List.takeWhile_append_dropWhile Server.pyIsSpace raw).symm
      _ = raw.takeWhile Server.pyIsSpace
            ++ (((raw.dropWhile Server.pyIsSpace).reverse.dropWhile Server.pyIsSpace).reverse
              ++ ((raw.dropWhile Server.pyIsSpace).reverse.takeWhile Server.pyIsSpace).reverse) := by
          rw [← h2]
      _ = raw.takeWhile Server.pyIsSpace
            ++ Server.handler_query raw
            ++ ((raw.dropWhile Server.pyIsSpace).reverse.takeWhile Server.pyIsSpace).reverse := by
          rw [List.append_assoc]
          rfl
  · intro c hc
    exact List.mem_takeWhile_imp hc
  · intro c hc
    rw [List.mem_reverse] at hc
    exact List.mem_takeWhile_imp hc

/-- Claim C9: `handle_client` propagates no exception for any connection
behaviour (receive/decode failure, dataset load failure, send failure), the
socket is always closed, and at most one send is attempted (nothing is
retried), so the accept loop never sees a per-connection error. -/
theorem C9_handler_never_propagates (st : Server.State) (recvd : Option PyStr)
    (disk : Option (List PyStr)) (sendOk : Bool) :
    (Server.handle_client st recvd disk sendOk).raised = false
    ∧ (Server.handle_client st recvd disk sendOk).closed = true
    ∧ (Server.handle_client st recvd disk sendOk).sent.length ≤ 1 := by
  cases recvd with
  | none => exact ⟨rfl, rfl, by simp [Server.handle_client]⟩
  | some raw =>
    rw [Server.handle_client]
    cases Server.process_query st disk (Server.handler_query raw) with
    | none => exact ⟨rfl, rfl, by simp⟩
    | some resp => cases sendOk <;> exact ⟨rfl, rfl, by simp⟩

/-- Claim C10: a `binary_search` call leaves the caller's list sorted
ascending (a permutation of the original), so in `benchmark_algorithms` the
`kmp_search` call that follows operates on the sorted list, while the other
strategies leave the list unchanged. -/
theorem C10_binary_search_sorts_in_place (l : List PyStr) (q : PyStr) :
    ((binary_search_call l q).2 = pySortLines l
      ∧ List.Sorted (· ≤ ·) (binary_search_call l q).2
      ∧ (binary_search_call l q).2.Perm l)
    ∧ benchmark_kmp_input l q = pySortLines l
    ∧ (linear_search_call l q).2 = l
    ∧ (hash_table_search_call l q).2 = l
    ∧ (∀ fuel, (kmp_search_call fuel l q).2 = l)
    ∧ (∀ fuel, (boyer_moore_search_call fuel l q).2 = l) :=
  ⟨⟨rfl, List.sorted_insertionSort (· ≤ ·) l, List.perm_insertionSort (· ≤ ·) l⟩,
    rfl, rfl, rfl, fun _ => rfl, fun _ => rfl⟩
